import Mathlib

/-!
Verification of the TransLens browser extension (chrome_ext/content.js and
chrome_ext/popup.js) against its natural-language specification.

The extension's logic is modelled as pure Lean functions.  Browser platform
facilities that are external to the repository are passed in as explicit
parameters:
  * the DOM TreeWalker enumeration of text nodes becomes the input list of
    text-node contents, in document order;
  * the WHATWG URL parser (the built-in `URL` constructor) becomes an
    abstract parameter `parseURL : String -> Option URLParts`;
  * `Math.random`-driven shuffling (`sort` with a random comparator) becomes
    an abstract `shuffle` function, constrained to produce a permutation;
  * `Date.now()` becomes an explicit `now : Nat` argument;
  * per-call results of the backend `/translate` endpoint become an abstract
    `api : Nat -> String -> ApiOutcome` function (call index, sentence).
-/

namespace TransLens

/-! ## JavaScript string primitives used by the source -/

/-- Characters removed by `String.prototype.trim` (ECMAScript WhiteSpace and
LineTerminator; the common members suffice for this development). -/
def isJsWhitespace (c : Char) : Bool :=
  c = ' ' || c = '\t' || c = '\n' || c = '\r' ||
  c = '\x0b' || c = '\x0c' || c = '\u00A0' || c = '\u2028' || c = '\u2029' || c = '\uFEFF'

/-- Model of `String.prototype.trim`. -/
def jsTrim (s : String) : String :=
  String.mk (((s.data.dropWhile isJsWhitespace).reverse.dropWhile isJsWhitespace).reverse)

/-- Substring test on lists of characters, used for `String.prototype.includes`. -/
def listContainsSub (sub : List Char) : List Char → Bool
  | [] => sub.isPrefixOf []
  | c :: cs => sub.isPrefixOf (c :: cs) || listContainsSub sub cs

/-- Model of `s.includes(sub)`: literal (plain-string) substring containment. -/
def jsIncludes (s sub : String) : Bool :=
  listContainsSub sub.data s.data

/-- Test of the regex `/[一-鿿]/` (content.js line 252): does the string
contain a character in the CJK range U+4E00..U+9FFF? -/
def hasCJK (s : String) : Bool :=
  s.data.any fun c => 0x4e00 ≤ c.toNat && c.toNat ≤ 0x9fff

/-! ## Page scanner (content.js, `extractChineseTexts`, lines 251-286)

The browser TreeWalker enumerates the text nodes under `document.body` in
document order; that enumeration is external to the repository, so a DOM
snapshot is modelled by the list of text-node contents it yields. -/

/-- A scanned candidate: `raw` is the node's `textContent`, `text` its trimmed
form (the source stores the node reference, the trimmed text and the parent). -/
structure TextCandidate where
  raw : String
  text : String
deriving DecidableEq, Repr

/-- The `acceptNode` filter passed to the TreeWalker: trim the node content,
reject when the trimmed length is `< 2`, otherwise accept exactly when the
CJK-character regex matches. -/
def acceptTextNode (content : String) : Bool :=
  let text := jsTrim content
  if text.length < 2 then false
  else hasCJK text

/-- `extractChineseTexts`: walk the accepted text nodes and push
`{node, text, parent}` for those whose trimmed text has length ≥ 2 (the loop
re-checks the length after the filter, as in the source). -/
def extractChineseTexts (textNodes : List String) : List TextCandidate :=
  (textNodes.filter acceptTextNode).filterMap fun content =>
    let text := jsTrim content
    if 2 ≤ text.length then some { raw := content, text := text } else none

/-! ## Sampler (content.js, `randomSelectTexts`, lines 289-293) -/

/-- `randomSelectTexts(texts, percentage)`:
`count = Math.max(1, Math.floor(texts.length * percentage))`, shuffle a copy
(`sort` with a random comparator, modelled by the abstract `shuffle`), then
`slice(0, count)`. -/
def randomSelectTexts {α : Type} (texts : List α) (percentage : ℚ)
    (shuffle : List α → List α) : List α :=
  let count : ℤ := max 1 ⌊(texts.length : ℚ) * percentage⌋
  (shuffle texts).take count.toNat

/-! ## Configuration load and merge

`chrome.storage` holds at most one object under the key `translatorConfig`;
any subset of its fields may be present.  A present field carries a value
(possibly the empty string); an absent field is `none`.  `JSON`-storable
values cannot be `undefined`, so present-but-undefined keys do not arise. -/

/-- The stored `translatorConfig` object: every field optional. -/
structure StoredConfig where
  serverUrl : Option String
  apiUrl : Option String
  apiKey : Option String
  modelName : Option String
  systemPrompt : Option String
  userPromptTemplate : Option String
  selectionPercentage : Option ℚ
  lastUpdated : Option Nat
deriving DecidableEq, Repr

/-- The empty stored object `{}` (the `result.translatorConfig || {}` fallback). -/
def emptyStored : StoredConfig :=
  ⟨none, none, none, none, none, none, none, none⟩

namespace ContentScript

/-- Shape of content.js's `DEFAULT_CONFIG` (lines 12-20). -/
structure DefaultShape where
  serverUrl : String
  apiUrl : String
  apiKey : String
  modelName : String
  systemPrompt : String
  userPromptTemplate : String
  selectionPercentage : ℚ
deriving DecidableEq, Repr

/-- content.js `DEFAULT_CONFIG` (lines 12-20). -/
def DEFAULT_CONFIG : DefaultShape where
  serverUrl := "http://127.0.0.1:5000"
  apiUrl := ""
  apiKey := ""
  modelName := ""
  systemPrompt := "你是一个英语翻译专家，精通于根据中文上下文去翻译词汇的意思。"
  userPromptTemplate := "翻译下面句子中的「{target_word}」：{context_sentence}"
  selectionPercentage := 40

/-- The merged configuration produced by `loadTranslatorConfig`. -/
structure TranslatorConfig where
  serverUrl : String
  apiUrl : String
  apiKey : String
  modelName : String
  systemPrompt : String
  userPromptTemplate : String
  selectionPercentage : ℚ
  lastUpdated : Nat
deriving DecidableEq, Repr

/-- content.js `loadTranslatorConfig` (lines 325-350):
`{...DEFAULT_CONFIG, ...config, lastUpdated: config.lastUpdated || Date.now()}`.
A field present in the stored object wins (even with an empty-string value);
`lastUpdated` falls back to `Date.now()` when absent or falsy (`0`).
`storedResult = none` covers both the missing key and the catch branch, which
use the defaults. -/
def loadTranslatorConfig (storedResult : Option StoredConfig) (now : Nat) :
    TranslatorConfig :=
  let config := storedResult.getD emptyStored
  { serverUrl := config.serverUrl.getD DEFAULT_CONFIG.serverUrl
    apiUrl := config.apiUrl.getD DEFAULT_CONFIG.apiUrl
    apiKey := config.apiKey.getD DEFAULT_CONFIG.apiKey
    modelName := config.modelName.getD DEFAULT_CONFIG.modelName
    systemPrompt := config.systemPrompt.getD DEFAULT_CONFIG.systemPrompt
    userPromptTemplate := config.userPromptTemplate.getD DEFAULT_CONFIG.userPromptTemplate
    selectionPercentage := config.selectionPercentage.getD DEFAULT_CONFIG.selectionPercentage
    lastUpdated :=
      match config.lastUpdated with
      | some t => if t = 0 then now else t
      | none => now }

/-- content.js line 234:
`(translatorConfig?.selectionPercentage || DEFAULT_CONFIG.selectionPercentage) / 100`
(`||` falls back on the falsy value `0`). -/
def effectiveSelectionPercentage (translatorConfig : Option TranslatorConfig) : ℚ :=
  (match translatorConfig with
   | some c => if c.selectionPercentage = 0 then DEFAULT_CONFIG.selectionPercentage
               else c.selectionPercentage
   | none => DEFAULT_CONFIG.selectionPercentage) / 100

end ContentScript

namespace Popup

/-- Shape of popup.js's `DEFAULT_CONFIG` (lines 6-13): unlike content.js it has
no `selectionPercentage` key. -/
structure DefaultShape where
  serverUrl : String
  apiUrl : String
  apiKey : String
  modelName : String
  systemPrompt : String
  userPromptTemplate : String
deriving DecidableEq, Repr

/-- popup.js `DEFAULT_CONFIG` (lines 6-13). -/
def DEFAULT_CONFIG : DefaultShape where
  serverUrl := "http://127.0.0.1:5000"
  apiUrl := ""
  apiKey := ""
  modelName := ""
  systemPrompt := "你是一个英语翻译专家，精通于根据中文上下文去翻译词汇的意思。"
  userPromptTemplate := "翻译下面句子中的「{target_word}」：{context_sentence}"

/-- The object returned by popup.js `getStoredConfig`: since the popup's
defaults have no `selectionPercentage` key, that field is present in the merge
result only when the stored object has it. -/
structure MergedConfig where
  serverUrl : String
  apiUrl : String
  apiKey : String
  modelName : String
  systemPrompt : String
  userPromptTemplate : String
  selectionPercentage : Option ℚ
  lastUpdated : Nat
deriving DecidableEq, Repr

/-- popup.js `getStoredConfig` (lines 342-355):
`{...DEFAULT_CONFIG, ...config, lastUpdated: config.lastUpdated || Date.now()}`,
with `{...DEFAULT_CONFIG, lastUpdated: Date.now()}` in the catch branch
(covered by `storedResult = none`). -/
def getStoredConfig (storedResult : Option StoredConfig) (now : Nat) :
    MergedConfig :=
  let config := storedResult.getD emptyStored
  { serverUrl := config.serverUrl.getD DEFAULT_CONFIG.serverUrl
    apiUrl := config.apiUrl.getD DEFAULT_CONFIG.apiUrl
    apiKey := config.apiKey.getD DEFAULT_CONFIG.apiKey
    modelName := config.modelName.getD DEFAULT_CONFIG.modelName
    systemPrompt := config.systemPrompt.getD DEFAULT_CONFIG.systemPrompt
    userPromptTemplate := config.userPromptTemplate.getD DEFAULT_CONFIG.userPromptTemplate
    selectionPercentage := config.selectionPercentage
    lastUpdated :=
      match config.lastUpdated with
      | some t => if t = 0 then now else t
      | none => now }

end Popup

/-! ## Annotator (content.js, `annotateWordInText`, lines 402-456)

The source builds `new RegExp(targetWord, 'g')` from the target word without
escaping and replaces every match in the parent's `innerHTML` (or, as a
fallback, in the candidate's text).  The JS regex semantics are modelled for
the fragment the theorems exercise: patterns built from literal characters
plus the `.` wildcard, matched leftmost and globally with the scan resuming
after each match, exactly as `String.prototype.replace` with the `g` flag. -/

/-- Match the pattern against a prefix of the input; on success return the
unconsumed remainder.  A pattern character `.` matches any character, every
other pattern character matches only itself. -/
def matchPrefixDot : List Char → List Char → Option (List Char)
  | [], rest => some rest
  | _ :: _, [] => none
  | p :: ps, c :: cs => if p = '.' || p = c then matchPrefixDot ps cs else none

/-- Left-to-right global replacement scan driven by a prefix matcher `m`:
at each position try `m`; on a match emit `repl` and resume after the match,
otherwise keep the character and move one position right.  The fuel argument
is instantiated with the input length, which suffices for every non-empty
pattern (each match consumes at least one character). -/
def replaceScan (m : List Char → Option (List Char)) (repl : List Char) :
    Nat → List Char → List Char
  | 0, s => s
  | _ + 1, [] => []
  | fuel + 1, c :: cs =>
    match m (c :: cs) with
    | some rest => repl ++ replaceScan m repl fuel rest
    | none => c :: replaceScan m repl fuel cs

/-- Model of `s.replace(new RegExp(pat, 'g'), repl)`, exact on the fragment
where the annotator theorems live: a non-empty pattern built from literal
characters plus the `.` wildcard, and a replacement string containing no `$`
(JS performs `$&`/`$$`-substitution on the replacement otherwise, and inserts
the replacement at every boundary for the empty pattern; theorems about
inputs outside this fragment must carry hypotheses excluding them). -/
def regexReplaceGlobal (pat repl s : String) : String :=
  String.mk (replaceScan (matchPrefixDot pat.data) repl.data s.data.length s.data)

/-- Literal prefix matcher: succeeds exactly when `pat` is a prefix, consuming
it. -/
def litMatchAt (pat : List Char) (l : List Char) : Option (List Char) :=
  if pat.isPrefixOf l then some (l.drop pat.length) else none

/-- Follows the spec's words, for comparison with `regexReplaceGlobal`:
replacement of every literal (plain-string) occurrence of `pat`, leftmost
first, scan resuming after each replaced occurrence. -/
def literalReplaceAll (pat repl s : String) : String :=
  String.mk (replaceScan (litMatchAt pat.data) repl.data s.data.length s.data)

/-- JS regex metacharacters; a target word containing none of them reads as a
plain-text pattern. -/
def isRegexMetachar (c : Char) : Bool :=
  ['.', '*', '+', '?', '^', '$', '(', ')', '[', ']', '\x7b', '\x7d', '\\', '|'].contains c

/-- The hoverable word span built at content.js lines 412-413 (the `wordId` is
the `Date.now()`/`Math.random()`-derived element id, passed in explicitly). -/
def hoverableWordHTML (wordId targetWord translation : String) : String :=
  "<span id=\"" ++ wordId ++
  "\" class=\"translens-hoverable-word\" style=\"cursor: pointer; color: #1e3a5f; font-weight: bold; text-decoration: underline; background-color: #e8f4f8; padding: 1px 2px; border-radius: 2px; transition: background-color 0.2s; position: relative;\" data-word=\"" ++
  targetWord ++ "\" data-translation=\"" ++ translation ++ "\">" ++ targetWord ++ "</span>"

/-- The bracket badge span built at content.js line 416. -/
def styledAnnotationHTML (translation : String) : String :=
  "<span style=\"color: #ff6b35; font-weight: bold; background-color: #fff3cd; padding: 1px 4px; border-radius: 3px; font-size: 0.85em; margin-left: 2px;\">【" ++
  translation ++ "】</span>"

/-- The full replacement markup: hoverable span immediately followed by the
bracket badge. -/
def annotationMarkup (wordId targetWord translation : String) : String :=
  hoverableWordHTML wordId targetWord translation ++ styledAnnotationHTML translation

/-- The DOM state `annotateWordInText` can read and write: the candidate's
trimmed text captured at scan time, the text node's current content, and the
parent's `innerHTML` (`none` models a parent without `innerHTML`). -/
structure TextData where
  text : String
  nodeContent : String
  parentHTML : Option String
deriving DecidableEq, Repr

/-- The DOM state after `annotateWordInText`. -/
structure AnnotateOutcome where
  nodeContent : String
  parentHTML : Option String
deriving DecidableEq, Repr

/-- content.js `annotateWordInText` (lines 402-456).  When the original text
contains the target word: with an `innerHTML`-capable parent, replace the
regex matches of the target word in the parent HTML by the hoverable span plus
badge; otherwise fall back to a plain-text annotation written into the text
node.  When the target word is absent, only a warning is logged and nothing
is mutated. -/
def annotateWordInText (textData : TextData) (targetWord translation wordId : String) :
    AnnotateOutcome :=
  let originalText := textData.text
  if jsIncludes originalText targetWord then
    match textData.parentHTML with
    | some currentHTML =>
      let hoverableWord := hoverableWordHTML wordId targetWord translation
      let styledAnnotation := styledAnnotationHTML translation
      let newHTML := regexReplaceGlobal targetWord (hoverableWord ++ styledAnnotation) currentHTML
      { nodeContent := textData.nodeContent, parentHTML := some newHTML }
    | none =>
      let annotation := " 【" ++ translation ++ "】"
      let newText := regexReplaceGlobal targetWord (targetWord ++ annotation) originalText
      { nodeContent := newText, parentHTML := none }
  else
    { nodeContent := textData.nodeContent, parentHTML := textData.parentHTML }

/-! ## Translation client (content.js, `translateSelectedTexts`, lines 296-322)

Each loop iteration awaits `callTranslateAPI(textData.text)` — a single POST
of `{sentence, api_config}` to `{serverUrl}/translate` — inside its own
`try`/`catch`.  A thrown error (network failure, non-2xx status, or JSON
parse failure, all rethrown by `callTranslateAPI`) is logged and the loop
moves on to the next item after the fixed 500ms delay. -/

/-- The JSON body the backend may return: both fields optional
(`{message}`-shaped errors carry neither). -/
structure ApiResponse where
  target_word : Option String
  translation : Option String
deriving DecidableEq, Repr

/-- Outcome of one `callTranslateAPI` call: a parsed JSON value (possibly
`null`) or a thrown error. -/
inductive ApiOutcome where
  | ok (result : Option ApiResponse)
  | failed
deriving DecidableEq, Repr

/-- JS truthiness of `result.target_word` / `result.translation`: present and
non-empty. -/
def truthyStr : Option String → Bool
  | none => false
  | some s => s ≠ ""

/-- What one loop iteration does with its item. -/
inductive ItemEvent where
  | annotated (td : TextData) (targetWord translation : String)
  | noValidResult
  | apiError
deriving DecidableEq, Repr

/-- The body of one iteration of `translateSelectedTexts`'s loop: on a result
with truthy `target_word` and `translation`, annotate; on any other result
log "no valid result"; on a thrown error log and skip. -/
def processItem (outcome : ApiOutcome) (td : TextData) : ItemEvent :=
  match outcome with
  | .ok (some r) =>
    if truthyStr r.target_word && truthyStr r.translation then
      .annotated td (r.target_word.getD "") (r.translation.getD "")
    else .noValidResult
  | .ok none => .noValidResult
  | .failed => .apiError

/-- The loop of `translateSelectedTexts`, threading the call index: returns
the sequence of request-body sentences POSTed (one per item, in order) and
the per-item events. -/
def translateLoop (api : Nat → String → ApiOutcome) :
    Nat → List TextData → List String × List ItemEvent
  | _, [] => ([], [])
  | i, td :: rest =>
    let outcome := api i td.text
    let tail := translateLoop api (i + 1) rest
    (td.text :: tail.1, processItem outcome td :: tail.2)

/-- content.js `translateSelectedTexts` (lines 296-322). -/
def translateSelectedTexts (api : Nat → String → ApiOutcome)
    (selectedTexts : List TextData) : List String × List ItemEvent :=
  translateLoop api 0 selectedTexts

/-! ## Popup: URL validation and settings save (popup.js) -/

namespace Popup

/-- The part of the browser's parsed `URL` object the popup reads. -/
structure URLParts where
  protocol : String
deriving DecidableEq, Repr

/-- popup.js `isValidUrl` (lines 358-365): `new URL(string)` (modelled by the
abstract `parseURL`, `none` = constructor throws), then
`url.protocol === 'http:' || url.protocol === 'https:'`; `false` on a parse
error. -/
def isValidUrl (parseURL : String → Option URLParts) (s : String) : Bool :=
  match parseURL s with
  | some url => url.protocol == "http:" || url.protocol == "https:"
  | none => false

/-- The raw values of the six input fields read by `saveSettings`. -/
structure SettingsForm where
  serverUrl : String
  apiUrl : String
  apiKey : String
  modelName : String
  systemPrompt : String
  userPromptTemplate : String
deriving DecidableEq, Repr

/-- The object passed to `chrome.storage.sync.set`. -/
structure SavedConfig where
  serverUrl : String
  apiUrl : String
  apiKey : String
  modelName : String
  systemPrompt : String
  userPromptTemplate : String
  lastUpdated : Nat
deriving DecidableEq, Repr

/-- popup.js `saveSettings` (lines 162-226): trim all six inputs, run the
validation checks in order and return (`none`, nothing persisted) on the
first failure; otherwise persist the trimmed config with
`lastUpdated = Date.now()`. -/
def saveSettings (parseURL : String → Option URLParts) (form : SettingsForm)
    (now : Nat) : Option SavedConfig :=
  let serverUrl := jsTrim form.serverUrl
  let apiUrl := jsTrim form.apiUrl
  let apiKey := jsTrim form.apiKey
  let modelName := jsTrim form.modelName
  let systemPrompt := jsTrim form.systemPrompt
  let userPromptTemplate := jsTrim form.userPromptTemplate
  if serverUrl == "" then none
  else if !isValidUrl parseURL serverUrl then none
  else if apiUrl != "" && !isValidUrl parseURL apiUrl then none
  else if userPromptTemplate != "" && !jsIncludes userPromptTemplate "{target_word}" then none
  else if userPromptTemplate != "" && !jsIncludes userPromptTemplate "{context_sentence}" then none
  else some
    { serverUrl := serverUrl
      apiUrl := apiUrl
      apiKey := apiKey
      modelName := modelName
      systemPrompt := systemPrompt
      userPromptTemplate := userPromptTemplate
      lastUpdated := now }

end Popup

/-! # Theorems -/

/-! ## C2: the scanner only produces candidates with trimmed length ≥ 2 and a
CJK character -/

/-- C2: For every DOM snapshot (list of text-node contents in document order),
every candidate produced by `extractChineseTexts` has trimmed length ≥ 2 and
contains at least one character in U+4E00..U+9FFF; equivalently, a text node
whose trimmed content is shorter than 2 or has no CJK character is never
included. -/
theorem extractChineseTexts_candidates_valid (textNodes : List String)
    (cand : TextCandidate) (hmem : cand ∈ extractChineseTexts textNodes) :
    2 ≤ cand.text.length ∧ hasCJK cand.text = true ∧ cand.text = jsTrim cand.raw := by
  simp only [extractChineseTexts, List.mem_filterMap, List.mem_filter] at hmem
  obtain ⟨content, ⟨-, haccept⟩, heq⟩ := hmem
  simp only [acceptTextNode] at haccept
  split at heq
  case isTrue hlen =>
    cases heq
    refine ⟨hlen, ?_, rfl⟩
    split at haccept
    · exact absurd haccept (by simp)
    · exact haccept
  case isFalse hlen =>
    exact absurd heq (by simp)

/-- Sample DOM snapshot for the C2 witness. -/
def sampleTextNodes : List String := [" 今天天气不错 ", "ok", "好", "hello world"]

/-- The single candidate the sampler snapshot yields. -/
def sampleCandidate : TextCandidate :=
  { raw := " 今天天气不错 ", text := "今天天气不错" }

/-- C2 witness: on a concrete snapshot the scanner yields exactly the Chinese
candidate, and the theorem's conclusions hold for it. -/
theorem extractChineseTexts_candidates_valid_witness :
    sampleCandidate ∈ extractChineseTexts sampleTextNodes ∧
    2 ≤ sampleCandidate.text.length ∧ hasCJK sampleCandidate.text = true ∧
    sampleCandidate.text = jsTrim sampleCandidate.raw :=
  ⟨by decide, extractChineseTexts_candidates_valid sampleTextNodes sampleCandidate (by decide)⟩

/-! ## C3: annotator is a no-op when the target word is absent -/

/-- C3: if the target word does not occur (as a literal substring) in the
candidate's original trimmed text, `annotateWordInText` changes neither the
parent's `innerHTML` nor the text node's content, and (being a total
function of the state) lets no exception propagate. -/
theorem annotateWordInText_absent_no_mutation (textData : TextData)
    (targetWord translation wordId : String)
    (habsent : jsIncludes textData.text targetWord = false) :
    annotateWordInText textData targetWord translation wordId =
      { nodeContent := textData.nodeContent, parentHTML := textData.parentHTML } := by
  unfold annotateWordInText
  simp [habsent]

/-- C3 witness: a concrete candidate whose text lacks the target word is left
untouched. -/
theorem annotateWordInText_absent_no_mutation_witness :
    jsIncludes "今天天气不错" "苹果" = false ∧
    annotateWordInText ⟨"今天天气不错", "今天天气不错", some "<b>今天天气不错</b>"⟩
        "苹果" "apple" "translens-word-1-a" =
      { nodeContent := "今天天气不错", parentHTML := some "<b>今天天气不错</b>" } :=
  ⟨by decide,
   annotateWordInText_absent_no_mutation
     ⟨"今天天气不错", "今天天气不错", some "<b>今天天气不错</b>"⟩
     "苹果" "apple" "translens-word-1-a" (by decide)⟩

/-! ## C7: the URL validator accepts exactly http/https-parsing strings -/

/-- C7: `isValidUrl` returns `true` exactly when the string parses as a URL
whose protocol is `http:` or `https:`; for every string that fails to parse,
or parses with any other scheme, it returns `false`. -/
theorem isValidUrl_iff_http_or_https (parseURL : String → Option Popup.URLParts)
    (s : String) :
    Popup.isValidUrl parseURL s = true ↔
      ∃ url, parseURL s = some url ∧
        (url.protocol = "http:" ∨ url.protocol = "https:") := by
  unfold Popup.isValidUrl
  cases h : parseURL s with
  | none => simp
  | some url => simp

/-! ## C1: sampler selection count -/

/-- A one-element candidate list on which the claimed count formula fails for
`percentage = 2` (stored `selectionPercentage = 200`, nowhere validated). -/
def singleCandidateList : List TextCandidate := [{ raw := "你好", text := "你好" }]

/-- C1 counterexample: for `N = 1` and `p = 2` the sampler returns 1 element
(`slice` clamps at the list length) while the claimed formula
`max(1, floor(N*p))` demands 2, so the claim as stated is false. -/
theorem randomSelectTexts_claimed_count_false :
    (randomSelectTexts singleCandidateList 2 id).length ≠
      (max 1 ⌊((singleCandidateList.length : ℕ) : ℚ) * 2⌋).toNat := by
  have hcount : (max 1 ⌊((singleCandidateList.length : ℕ) : ℚ) * 2⌋).toNat = 2 := by
    norm_num [singleCandidateList]
    rfl
  intro h
  rw [randomSelectTexts] at h
  simp only [id_eq, List.length_take] at h
  rw [hcount] at h
  simp [singleCandidateList] at h

/-- C1 amended: the selection length is
`min(N, max(1, floor(N*p)))`, hence always at most `N`; whenever `p ≤ 1`
(every percentage field value up to 100) it equals `max(1, floor(N*p))`
exactly as claimed.  The shuffle is any permutation, which is all
`sort` with a random comparator guarantees. -/
theorem randomSelectTexts_length {α : Type} (texts : List α) (p : ℚ)
    (shuffle : List α → List α) (hperm : (shuffle texts).Perm texts) :
    (randomSelectTexts texts p shuffle).length
      = min (max 1 ⌊(texts.length : ℚ) * p⌋).toNat texts.length ∧
    (randomSelectTexts texts p shuffle).length ≤ texts.length ∧
    (p ≤ 1 → 1 ≤ texts.length →
      (randomSelectTexts texts p shuffle).length
        = (max 1 ⌊(texts.length : ℚ) * p⌋).toNat) := by
  have hlen : (shuffle texts).length = texts.length := hperm.length_eq
  have hmin : (randomSelectTexts texts p shuffle).length
      = min (max 1 ⌊(texts.length : ℚ) * p⌋).toNat texts.length := by
    rw [randomSelectTexts]
    simp [List.length_take, hlen]
  refine ⟨hmin, ?_, ?_⟩
  · rw [hmin]; exact Nat.min_le_right _ _
  · intro hp hN
    rw [hmin]
    refine Nat.min_eq_left ?_
    have hfloor : ⌊(texts.length : ℚ) * p⌋ ≤ (texts.length : ℤ) := by
      have hmul : (texts.length : ℚ) * p ≤ (texts.length : ℚ) :=
        mul_le_of_le_one_right (by positivity) hp
      calc ⌊(texts.length : ℚ) * p⌋ ≤ ⌊(texts.length : ℚ)⌋ := Int.floor_le_floor hmul
        _ = (texts.length : ℤ) := Int.floor_natCast _
    have hmax : (max 1 ⌊(texts.length : ℚ) * p⌋) ≤ (texts.length : ℤ) := by
      refine max_le ?_ hfloor
      exact_mod_cast hN
    calc (max 1 ⌊(texts.length : ℚ) * p⌋).toNat
        ≤ ((texts.length : ℤ)).toNat := Int.toNat_le_toNat hmax
      _ = texts.length := Int.toNat_natCast _

/-- Ten candidates, as in the end-to-end sentence of the claim. -/
def tenCandidates : List TextCandidate := List.replicate 10 { raw := "你好", text := "你好" }

/-- A loaded config with `selectionPercentage = 10`. -/
def sampleConfig : ContentScript.TranslatorConfig :=
  { serverUrl := "http://127.0.0.1:5000", apiUrl := "", apiKey := "", modelName := ""
    systemPrompt := "", userPromptTemplate := "", selectionPercentage := 10
    lastUpdated := 0 }

/-- C1 witness: with 10 candidates and `selectionPercentage = 10` (effective
ratio `10/100`), exactly 1 candidate is selected. -/
theorem randomSelectTexts_length_witness :
    (randomSelectTexts tenCandidates
      (ContentScript.effectiveSelectionPercentage (some sampleConfig)) id).length = 1 := by
  have h := (randomSelectTexts_length tenCandidates
    (ContentScript.effectiveSelectionPercentage (some sampleConfig)) id
    (List.Perm.refl _)).1
  rw [h]
  norm_num [ContentScript.effectiveSelectionPercentage, sampleConfig, tenCandidates]

/-! ## C4: missing stored fields resolve to defaults -/

/-- C4: for every stored config object (any subset of keys present), each
field absent from the stored object comes out of the merge equal to its
default — in content.js's `loadTranslatorConfig` (whose defaults include
`selectionPercentage = 40`) and in popup.js's `getStoredConfig` (whose
defaults are the six string fields); a missing or unreadable stored object
produces the full defaults.  The result type always carries all defaultable
fields, so the merged config is fully populated. -/
theorem configMerge_missing_fields_default (stored : StoredConfig) (now : Nat) :
    ((stored.serverUrl = none →
        (ContentScript.loadTranslatorConfig (some stored) now).serverUrl
          = ContentScript.DEFAULT_CONFIG.serverUrl) ∧
     (stored.apiUrl = none →
        (ContentScript.loadTranslatorConfig (some stored) now).apiUrl
          = ContentScript.DEFAULT_CONFIG.apiUrl) ∧
     (stored.apiKey = none →
        (ContentScript.loadTranslatorConfig (some stored) now).apiKey
          = ContentScript.DEFAULT_CONFIG.apiKey) ∧
     (stored.modelName = none →
        (ContentScript.loadTranslatorConfig (some stored) now).modelName
          = ContentScript.DEFAULT_CONFIG.modelName) ∧
     (stored.systemPrompt = none →
        (ContentScript.loadTranslatorConfig (some stored) now).systemPrompt
          = ContentScript.DEFAULT_CONFIG.systemPrompt) ∧
     (stored.userPromptTemplate = none →
        (ContentScript.loadTranslatorConfig (some stored) now).userPromptTemplate
          = ContentScript.DEFAULT_CONFIG.userPromptTemplate) ∧
     (stored.selectionPercentage = none →
        (ContentScript.loadTranslatorConfig (some stored) now).selectionPercentage
          = ContentScript.DEFAULT_CONFIG.selectionPercentage)) ∧
    ((stored.serverUrl = none →
        (Popup.getStoredConfig (some stored) now).serverUrl
          = Popup.DEFAULT_CONFIG.serverUrl) ∧
     (stored.apiUrl = none →
        (Popup.getStoredConfig (some stored) now).apiUrl
          = Popup.DEFAULT_CONFIG.apiUrl) ∧
     (stored.apiKey = none →
        (Popup.getStoredConfig (some stored) now).apiKey
          = Popup.DEFAULT_CONFIG.apiKey) ∧
     (stored.modelName = none →
        (Popup.getStoredConfig (some stored) now).modelName
          = Popup.DEFAULT_CONFIG.modelName) ∧
     (stored.systemPrompt = none →
        (Popup.getStoredConfig (some stored) now).systemPrompt
          = Popup.DEFAULT_CONFIG.systemPrompt) ∧
     (stored.userPromptTemplate = none →
        (Popup.getStoredConfig (some stored) now).userPromptTemplate
          = Popup.DEFAULT_CONFIG.userPromptTemplate)) ∧
    ContentScript.loadTranslatorConfig none now =
      { serverUrl := ContentScript.DEFAULT_CONFIG.serverUrl
        apiUrl := ContentScript.DEFAULT_CONFIG.apiUrl
        apiKey := ContentScript.DEFAULT_CONFIG.apiKey
        modelName := ContentScript.DEFAULT_CONFIG.modelName
        systemPrompt := ContentScript.DEFAULT_CONFIG.systemPrompt
        userPromptTemplate := ContentScript.DEFAULT_CONFIG.userPromptTemplate
        selectionPercentage := ContentScript.DEFAULT_CONFIG.selectionPercentage
        lastUpdated := now } ∧
    Popup.getStoredConfig none now =
      { serverUrl := Popup.DEFAULT_CONFIG.serverUrl
        apiUrl := Popup.DEFAULT_CONFIG.apiUrl
        apiKey := Popup.DEFAULT_CONFIG.apiKey
        modelName := Popup.DEFAULT_CONFIG.modelName
        systemPrompt := Popup.DEFAULT_CONFIG.systemPrompt
        userPromptTemplate := Popup.DEFAULT_CONFIG.userPromptTemplate
        selectionPercentage := none
        lastUpdated := now } := by
  refine ⟨⟨?_, ?_, ?_, ?_, ?_, ?_, ?_⟩, ⟨?_, ?_, ?_, ?_, ?_, ?_⟩, rfl, rfl⟩ <;>
    · intro h
      simp [ContentScript.loadTranslatorConfig, Popup.getStoredConfig, h]

/-- C4 witness: merging the empty stored object at time 7 yields the defaults. -/
theorem configMerge_missing_fields_default_witness :
    emptyStored.serverUrl = none ∧
    (ContentScript.loadTranslatorConfig (some emptyStored) 7).serverUrl
      = "http://127.0.0.1:5000" ∧
    (ContentScript.loadTranslatorConfig (some emptyStored) 7).selectionPercentage = 40 ∧
    (Popup.getStoredConfig (some emptyStored) 7).userPromptTemplate
      = "翻译下面句子中的「{target_word}」：{context_sentence}" := by
  refine ⟨rfl, ?_, ?_, ?_⟩
  · exact ((configMerge_missing_fields_default emptyStored 7).1.1 rfl)
  · exact ((configMerge_missing_fields_default emptyStored 7).1.2.2.2.2.2.2 rfl)
  · exact ((configMerge_missing_fields_default emptyStored 7).2.1.2.2.2.2.2 rfl)

/-! ## C10: present stored keys win the merge, lastUpdated excepted -/

/-- C10: both merges keep the stored value of every key present in the stored
object, even an empty string (or a `selectionPercentage` of `0`) — the spread
`{...DEFAULT_CONFIG, ...config}` does not test truthiness; the single
exception is `lastUpdated`, computed as `config.lastUpdated || Date.now()`,
which falls back to the current time exactly when the stored value is absent
or falsy (`0`) and is kept otherwise. -/
theorem configMerge_present_fields_kept (stored : StoredConfig) (now : Nat) :
    ((∀ v, stored.serverUrl = some v →
        (ContentScript.loadTranslatorConfig (some stored) now).serverUrl = v) ∧
     (∀ v, stored.apiUrl = some v →
        (ContentScript.loadTranslatorConfig (some stored) now).apiUrl = v) ∧
     (∀ v, stored.apiKey = some v →
        (ContentScript.loadTranslatorConfig (some stored) now).apiKey = v) ∧
     (∀ v, stored.modelName = some v →
        (ContentScript.loadTranslatorConfig (some stored) now).modelName = v) ∧
     (∀ v, stored.systemPrompt = some v →
        (ContentScript.loadTranslatorConfig (some stored) now).systemPrompt = v) ∧
     (∀ v, stored.userPromptTemplate = some v →
        (ContentScript.loadTranslatorConfig (some stored) now).userPromptTemplate = v) ∧
     (∀ q, stored.selectionPercentage = some q →
        (ContentScript.loadTranslatorConfig (some stored) now).selectionPercentage = q)) ∧
    ((∀ v, stored.serverUrl = some v →
        (Popup.getStoredConfig (some stored) now).serverUrl = v) ∧
     (∀ v, stored.apiUrl = some v →
        (Popup.getStoredConfig (some stored) now).apiUrl = v) ∧
     (∀ v, stored.apiKey = some v →
        (Popup.getStoredConfig (some stored) now).apiKey = v) ∧
     (∀ v, stored.modelName = some v →
        (Popup.getStoredConfig (some stored) now).modelName = v) ∧
     (∀ v, stored.systemPrompt = some v →
        (Popup.getStoredConfig (some stored) now).systemPrompt = v) ∧
     (∀ v, stored.userPromptTemplate = some v →
        (Popup.getStoredConfig (some stored) now).userPromptTemplate = v) ∧
     (∀ q, stored.selectionPercentage = some q →
        (Popup.getStoredConfig (some stored) now).selectionPercentage = some q)) ∧
    ((stored.lastUpdated = none →
        (ContentScript.loadTranslatorConfig (some stored) now).lastUpdated = now) ∧
     (stored.lastUpdated = some 0 →
        (ContentScript.loadTranslatorConfig (some stored) now).lastUpdated = now) ∧
     (∀ t, stored.lastUpdated = some t → t ≠ 0 →
        (ContentScript.loadTranslatorConfig (some stored) now).lastUpdated = t)) ∧
    ((stored.lastUpdated = none →
        (Popup.getStoredConfig (some stored) now).lastUpdated = now) ∧
     (stored.lastUpdated = some 0 →
        (Popup.getStoredConfig (some stored) now).lastUpdated = now) ∧
     (∀ t, stored.lastUpdated = some t → t ≠ 0 →
        (Popup.getStoredConfig (some stored) now).lastUpdated = t)) := by
  refine ⟨⟨?_, ?_, ?_, ?_, ?_, ?_, ?_⟩, ⟨?_, ?_, ?_, ?_, ?_, ?_, ?_⟩,
    ⟨?_, ?_, ?_⟩, ⟨?_, ?_, ?_⟩⟩ <;>
    first
      | (intro t h ht
         simp [ContentScript.loadTranslatorConfig, Popup.getStoredConfig, h, ht])
      | (intro v h
         simp [ContentScript.loadTranslatorConfig, Popup.getStoredConfig, h])
      | (intro h
         simp [ContentScript.loadTranslatorConfig, Popup.getStoredConfig, h])

/-- A stored object with every string key present but empty, and falsy
numeric keys. -/
def allEmptyStored : StoredConfig :=
  ⟨some "", some "", some "", some "", some "", some "", some 0, some 0⟩

/-- C10 witness: the present-but-empty stored `apiUrl` survives the merge as
`""` instead of being replaced, and the falsy `lastUpdated = 0` falls back to
the current time. -/
theorem configMerge_present_fields_kept_witness :
    allEmptyStored.apiUrl = some "" ∧
    (ContentScript.loadTranslatorConfig (some allEmptyStored) 7).apiUrl = "" ∧
    (Popup.getStoredConfig (some allEmptyStored) 7).serverUrl = "" ∧
    (ContentScript.loadTranslatorConfig (some allEmptyStored) 7).lastUpdated = 7 := by
  refine ⟨rfl, ?_, ?_, ?_⟩
  · exact (configMerge_present_fields_kept allEmptyStored 7).1.2.1 "" rfl
  · exact (configMerge_present_fields_kept allEmptyStored 7).2.1.1 "" rfl
  · exact (configMerge_present_fields_kept allEmptyStored 7).2.2.1.2.1 rfl

/-! ## Shared lemmas about the translation loop -/

/-- The request trace of the loop is the sentence of each item, in order. -/
theorem translateLoop_requests (api : Nat → String → ApiOutcome) (k : Nat)
    (texts : List TextData) :
    (translateLoop api k texts).1 = texts.map (fun td => td.text) := by
  induction texts generalizing k with
  | nil => rfl
  | cons td rest ih => simp [translateLoop, ih]

/-- The loop emits one event per item. -/
theorem translateLoop_events_length (api : Nat → String → ApiOutcome) (k : Nat)
    (texts : List TextData) :
    (translateLoop api k texts).2.length = texts.length := by
  induction texts generalizing k with
  | nil => rfl
  | cons td rest ih => simp [translateLoop, ih]

/-- The `j`-th event of the loop started at call index `k` is exactly what
`processItem` does with the `j`-th item's own API outcome. -/
theorem translateLoop_events_get (api : Nat → String → ApiOutcome) (k : Nat)
    (texts : List TextData) (j : Nat) (hj : j < texts.length) :
    (translateLoop api k texts).2[j]? =
      some (processItem (api (k + j) (texts.get ⟨j, hj⟩).text) (texts.get ⟨j, hj⟩)) := by
  induction texts generalizing k j with
  | nil => exact absurd hj (by simp)
  | cons td rest ih =>
    cases j with
    | zero => simp [translateLoop]
    | succ j =>
      have hj' : j < rest.length := by simpa using hj
      simp only [translateLoop, List.getElem?_cons_succ]
      rw [ih (k + 1) j hj']
      have : k + 1 + j = k + (j + 1) := by omega
      rw [this]
      rfl

/-! ## C8: one request per selected candidate, sequential and in order -/

/-- C8: the translation client issues exactly one POST body per selected
candidate, and the sequence of request-body `sentence` fields equals the
sequence of the selected candidates' texts — the loop awaits each call before
the next, so the trace order is the list order. -/
theorem translateSelectedTexts_requests_in_order (api : Nat → String → ApiOutcome)
    (selectedTexts : List TextData) :
    (translateSelectedTexts api selectedTexts).1 =
      selectedTexts.map (fun td => td.text) :=
  translateLoop_requests api 0 selectedTexts

/-! ## C6: per-item failures are contained -/

/-- C6: a thrown translation failure for item `i` (network error, non-2xx
response, or malformed JSON — all surfaced as a rejected `callTranslateAPI`)
is caught inside that iteration: the item's event is `apiError` (skipped, no
retry), the loop still emits one event per item, and every item's event is
determined by its own API outcome, so the rest of the batch is processed
unchanged; the loop function is total, so nothing propagates out of
`translateSelectedTexts`. -/
theorem translateSelectedTexts_failure_isolated (api : Nat → String → ApiOutcome)
    (texts : List TextData) (i : Nat) (hi : i < texts.length)
    (hfail : api i (texts.get ⟨i, hi⟩).text = ApiOutcome.failed) :
    (translateSelectedTexts api texts).2.length = texts.length ∧
    (translateSelectedTexts api texts).2[i]? = some ItemEvent.apiError ∧
    (∀ j (hj : j < texts.length),
      (translateSelectedTexts api texts).2[j]? =
        some (processItem (api j (texts.get ⟨j, hj⟩).text) (texts.get ⟨j, hj⟩))) := by
  refine ⟨translateLoop_events_length api 0 texts, ?_, ?_⟩
  · rw [translateSelectedTexts, translateLoop_events_get api 0 texts i hi]
    simp only [Nat.zero_add, hfail]
    rfl
  · intro j hj
    rw [translateSelectedTexts, translateLoop_events_get api 0 texts j hj]
    simp

/-- An API that throws on the first call and succeeds afterwards. -/
def failingFirstApi : Nat → String → ApiOutcome :=
  fun i _ => if i = 0 then ApiOutcome.failed
             else ApiOutcome.ok (some { target_word := some "天气", translation := some "weather" })

/-- A two-item batch for the C6 witness. -/
def twoCandidates : List TextData :=
  [{ text := "今天天气不错", nodeContent := "今天天气不错", parentHTML := none },
   { text := "天气很好", nodeContent := "天气很好", parentHTML := none }]

/-- C6 witness: with the first call failing, the first item yields `apiError`
and the second is still translated and annotated. -/
theorem translateSelectedTexts_failure_isolated_witness :
    (translateSelectedTexts failingFirstApi twoCandidates).2.length = 2 ∧
    (translateSelectedTexts failingFirstApi twoCandidates).2[0]? = some ItemEvent.apiError ∧
    (translateSelectedTexts failingFirstApi twoCandidates).2[1]? =
      some (ItemEvent.annotated
        { text := "天气很好", nodeContent := "天气很好", parentHTML := none }
        "天气" "weather") := by
  have h := translateSelectedTexts_failure_isolated failingFirstApi twoCandidates 0
    (by decide) (by rfl)
  refine ⟨h.1, h.2.1, ?_⟩
  rw [h.2.2 1 (by decide)]
  rfl

/-! ## C9: validation failures leave the persisted config unchanged -/

/-- C9: whenever any `saveSettings` validation check fails — empty trimmed
server URL, server URL not a valid http/https URL, non-empty API URL not a
valid http/https URL, or a non-empty user prompt template missing the
`{target_word}` or `{context_sentence}` placeholder — the function returns
before reaching `chrome.storage.sync.set`, so nothing is persisted. -/
theorem saveSettings_validation_blocks_persist
    (parseURL : String → Option Popup.URLParts) (form : Popup.SettingsForm) (now : Nat)
    (hbad :
      jsTrim form.serverUrl = "" ∨
      Popup.isValidUrl parseURL (jsTrim form.serverUrl) = false ∨
      (jsTrim form.apiUrl ≠ "" ∧
        Popup.isValidUrl parseURL (jsTrim form.apiUrl) = false) ∨
      (jsTrim form.userPromptTemplate ≠ "" ∧
        jsIncludes (jsTrim form.userPromptTemplate) "{target_word}" = false) ∨
      (jsTrim form.userPromptTemplate ≠ "" ∧
        jsIncludes (jsTrim form.userPromptTemplate) "{context_sentence}" = false)) :
    Popup.saveSettings parseURL form now = none := by
  rw [Popup.saveSettings]
  split
  · rfl
  · split
    · rfl
    · split
      · rfl
      · split
        · rfl
        · split
          · rfl
          · next h1 h2 h3 h4 h5 =>
            exfalso
            rcases hbad with hb | hb | ⟨hb1, hb2⟩ | ⟨hb1, hb2⟩ | ⟨hb1, hb2⟩ <;>
              simp_all

/-- A URL parser that rejects everything (every `new URL` call throws). -/
def rejectAllURLs : String → Option Popup.URLParts := fun _ => none

/-- A form whose server URL field is blank. -/
def blankForm : Popup.SettingsForm := ⟨"", "", "", "", "", ""⟩

/-- C9 witness: with a blank server URL the first validation fails and nothing
is persisted. -/
theorem saveSettings_validation_blocks_persist_witness :
    jsTrim blankForm.serverUrl = "" ∧
    Popup.saveSettings rejectAllURLs blankForm 5 = none :=
  ⟨rfl, saveSettings_validation_blocks_persist rejectAllURLs blankForm 5 (Or.inl rfl)⟩

/-! ## Shared lemmas about the replacement scan -/

/-- On a pattern without the `.` wildcard, the regex prefix matcher is the
literal prefix matcher. -/
theorem matchPrefixDot_eq_litMatchAt (pat : List Char)
    (hdot : ∀ c ∈ pat, c ≠ '.') (l : List Char) :
    matchPrefixDot pat l = litMatchAt pat l := by
  induction pat generalizing l with
  | nil => simp [matchPrefixDot, litMatchAt, List.isPrefixOf]
  | cons p ps ih =>
    have hp : p ≠ '.' := hdot p (by simp)
    cases l with
    | nil => simp [matchPrefixDot, litMatchAt, List.isPrefixOf]
    | cons c cs =>
      by_cases hpc : p = c
      · subst hpc
        rw [matchPrefixDot, if_pos (by simp)]
        rw [ih (fun x hx => hdot x (List.mem_cons_of_mem _ hx)) cs]
        simp only [litMatchAt, List.isPrefixOf, beq_self_eq_true, Bool.true_and]
        split
        · next hpre => simp [hpre]
        · next hpre => simp [hpre]
      · rw [matchPrefixDot, if_neg (by simp [hp, hpc])]
        simp [litMatchAt, List.isPrefixOf, hpc]

/-- The replacement scan only depends on the matcher's behaviour. -/
theorem replaceScan_congr (m₁ m₂ : List Char → Option (List Char))
    (repl : List Char) (hm : ∀ l, m₁ l = m₂ l) (fuel : Nat) (s : List Char) :
    replaceScan m₁ repl fuel s = replaceScan m₂ repl fuel s := by
  induction fuel generalizing s with
  | zero => rfl
  | succ fuel ih =>
    cases s with
    | nil => rfl
    | cons c cs =>
      rw [replaceScan, replaceScan, hm]
      cases h : m₂ (c :: cs) with
      | some rest => simp [ih]
      | none => simp [ih]

/-- On a pattern without the `.` wildcard, the unescaped-regex global
replacement coincides with literal replacement of all occurrences. -/
theorem regexReplaceGlobal_eq_literal (pat repl s : String)
    (hdot : ∀ c ∈ pat.data, c ≠ '.') :
    regexReplaceGlobal pat repl s = literalReplaceAll pat repl s := by
  unfold regexReplaceGlobal literalReplaceAll
  rw [replaceScan_congr _ _ _ (matchPrefixDot_eq_litMatchAt pat.data hdot)]

/-! ## C5: the annotator's replacement is the unescaped-regex one -/

/-- A candidate whose text and parent HTML contain a literal dot. -/
def dotTextData : TextData := { text := "a.b", nodeContent := "a.b", parentHTML := some "a.b" }

/-- C5 counterexample: for the target word `"."` (a regex metacharacter, which
the source feeds unescaped into `new RegExp`), the annotator does not replace
the literal occurrences of the word: the wildcard matches every character of
`"a.b"`, so the resulting `innerHTML` differs from the literal
replace-all result. -/
theorem annotateWordInText_not_literal_counterexample :
    (annotateWordInText dotTextData "." "dot" "w").parentHTML ≠
      some (literalReplaceAll "." (annotationMarkup "w" "." "dot") "a.b") := by
  decide

/-- C5 amended: the annotator replaces the regex matches of the target word in
the parent's HTML; when the target word is non-empty and contains no regex
metacharacter (so in particular no `$` — `$` is in the metacharacter set),
and the spliced `translation` and generated element id contain no `$` (so the
replacement string undergoes no `$&`/`$$`-substitution), this coincides with
replacing exactly the literal occurrences of the word by the hoverable span
plus bracket badge.  For metacharacter-bearing words the pattern is
interpreted as a regex instead — the latent bug the spec notes; the
non-emptiness and no-`$` hypotheses bound the fragment on which
`regexReplaceGlobal` models the JS `replace` exactly. -/
theorem annotateWordInText_literal_replacement (textData : TextData)
    (targetWord translation wordId currentHTML : String)
    (hparent : textData.parentHTML = some currentHTML)
    (hinc : jsIncludes textData.text targetWord = true)
    (hmeta : targetWord.data.all (fun c => !isRegexMetachar c) = true)
    (_hne : targetWord ≠ "")
    (_htply : translation.data.all (fun c => c != '$') = true)
    (_hwid : wordId.data.all (fun c => c != '$') = true) :
    annotateWordInText textData targetWord translation wordId =
      { nodeContent := textData.nodeContent
        parentHTML := some (literalReplaceAll targetWord
          (annotationMarkup wordId targetWord translation) currentHTML) } := by
  have hdot : ∀ c ∈ targetWord.data, c ≠ '.' := by
    intro c hc hcdot
    have h := List.all_eq_true.mp hmeta c hc
    subst hcdot
    exact absurd h (by decide)
  have hres : annotateWordInText textData targetWord translation wordId =
      { nodeContent := textData.nodeContent
        parentHTML := some (regexReplaceGlobal targetWord
          (annotationMarkup wordId targetWord translation) currentHTML) } := by
    rw [annotateWordInText]
    simp [hinc, hparent, annotationMarkup]
  rw [hres, regexReplaceGlobal_eq_literal _ _ _ hdot]

/-- A candidate for the C5 witness whose parent HTML equals its text. -/
def weatherTextData : TextData :=
  { text := "今天天气不错", nodeContent := "今天天气不错", parentHTML := some "今天天气不错" }

/-- C5 witness: for the non-empty, metacharacter-free target word `"天气"`
and `$`-free translation and element id, the annotator performs exactly the
literal replacement. -/
theorem annotateWordInText_literal_replacement_witness :
    jsIncludes weatherTextData.text "天气" = true ∧
    annotateWordInText weatherTextData "天气" "weather" "w1" =
      { nodeContent := "今天天气不错"
        parentHTML := some (literalReplaceAll "天气"
          (annotationMarkup "w1" "天气" "weather") "今天天气不错") } :=
  ⟨by decide,
   annotateWordInText_literal_replacement weatherTextData "天气" "weather" "w1"
     "今天天气不错" rfl (by decide) (by decide) (by decide) (by decide) (by decide)⟩

end TransLens
